import Mathlib

/-!
Verification development for the Session-Sniffer packet-monitoring program
(`GTA_V_Session_Sniffer.py`).  The definitions below are a shallow embedding of
the program's core data model and operations:

* timestamps (`datetime`) are modelled as `Int` milliseconds; `timedelta`
  comparisons become integer comparisons on the same scale;
* Python lists/dicts/sets become Lean lists and association lists (sets are
  lists queried only through membership);
* `strftime`-formatted detection strings are abstracted to the underlying
  packet timestamp (the program never inspects their content, only whether
  they are set);
* fatal `terminate_script` paths and raised exceptions become explicit
  constructors / `Except` results.

Sections are ordered: generic comparison helpers, packet classification,
the player record and the ingestion mutation (`packet_callback`), the
rendering-cycle lifecycle pass, the session-host heuristic, the UserIP
database build, the IP-lookup batch builder and pending/results state, and
the session-table sorting.  All theorems come after all definitions.
-/

namespace SessionSniffer

/-! ### IPv4 addresses and `is_private_device_ipv4`

`is_private_device_ipv4(ip)` returns `IPv4Address(ip).is_private`.  The
Python `ipaddress` module defines `is_private` for IPv4 as membership in
the IANA special-use networks listed below; we model an address as its four
octets.
-/

/-- An IPv4 address as its four octets. -/
structure IPv4 where
  a : Nat
  b : Nat
  c : Nat
  d : Nat
deriving DecidableEq, Repr

/-- Model of `Modules/utils.is_private_device_ipv4`: Python
`IPv4Address(ip).is_private`, i.e. membership in the IANA special-use
private networks (0.0.0.0/8, 10.0.0.0/8, 127.0.0.0/8, 169.254.0.0/16,
172.16.0.0/12, 192.0.0.0/29, 192.0.0.170/31, 192.0.2.0/24, 192.168.0.0/16,
198.18.0.0/15, 198.51.100.0/24, 203.0.113.0/24, 240.0.0.0/4,
255.255.255.255/32). -/
def is_private_device_ipv4 (ip : IPv4) : Bool :=
  ip.a == 0 || ip.a == 10 || ip.a == 127 ||
  (ip.a == 169 && ip.b == 254) ||
  (ip.a == 172 && 16 ≤ ip.b && ip.b ≤ 31) ||
  (ip.a == 192 && ip.b == 0 && ip.c == 0 && ip.d ≤ 7) ||
  (ip.a == 192 && ip.b == 0 && ip.c == 0 && (ip.d == 170 || ip.d == 171)) ||
  (ip.a == 192 && ip.b == 0 && ip.c == 2) ||
  (ip.a == 192 && ip.b == 168) ||
  (ip.a == 198 && (ip.b == 18 || ip.b == 19)) ||
  (ip.a == 198 && ip.b == 51 && ip.c == 100) ||
  (ip.a == 203 && ip.b == 0 && ip.c == 113) ||
  (240 ≤ ip.a)

/-! ### Packet endpoint classification (`packet_callback`, no fixed capture IP)

When `Settings.CAPTURE_IP_ADDRESS` is unset, `packet_callback` classifies the
packet by private-address tests on both endpoints (source lines 2780-2825):

* both endpoints private: `return` (the packet is silently skipped);
* exactly one endpoint private: the other endpoint is the remote peer and its
  port is taken from the corresponding side;
* neither endpoint private: `terminate_script` (fatal);
* afterwards, a missing peer port is also fatal.
-/

/-- Outcome of the endpoint classification in `packet_callback`. -/
inductive ClassifyResult where
  /-- The packet is silently skipped (`return`). -/
  | skip : ClassifyResult
  /-- The remote peer and its UDP port were determined. -/
  | peer (ip : IPv4) (port : Nat) : ClassifyResult
  /-- `terminate_script` is invoked: a fatal, process-ending failure. -/
  | fatal : ClassifyResult
deriving DecidableEq, Repr

/-- Model of the no-capture-IP branch of `packet_callback` (lines 2780-2825),
including the subsequent missing-port check. -/
def classify_no_capture_ip (src dst : IPv4) (srcport dstport : Option Nat) :
    ClassifyResult :=
  if is_private_device_ipv4 src && is_private_device_ipv4 dst then
    .skip
  else if is_private_device_ipv4 src then
    match dstport with
    | some p => .peer dst p
    | none => .fatal
  else if is_private_device_ipv4 dst then
    match srcport with
    | some p => .peer src p
    | none => .fatal
  else
    .fatal

/-! ### The player record

Mirrors `Player` and its component classes.  `datetime` values are `Int`
milliseconds.  The raw `lat`/`lon`/`offset` lookup fields (Python floats/ints)
are abstracted to `Int`; no claim inspects their numeric value.
-/

/-- Mirror of `Player_PPS` (packets-per-second sliding window). -/
structure Player_PPS where
  t1 : Int
  counter : Nat
  rate : Nat
  is_first_calculation : Bool
deriving DecidableEq, Repr

/-- Mirror of `Player_PPS.__init__` / `reset`. -/
def Player_PPS.init (packet_datetime : Int) : Player_PPS :=
  { t1 := packet_datetime, counter := 0, rate := 0, is_first_calculation := true }

/-- Mirror of `Player_Ports`. -/
structure Player_Ports where
  list : List Nat
  first : Nat
  intermediate : List Nat
  last : Nat
deriving DecidableEq, Repr

/-- Mirror of `Player_Ports.__init__` / `reset`. -/
def Player_Ports.init (port : Nat) : Player_Ports :=
  { list := [port], first := port, intermediate := [], last := port }

/-- Mirror of `Player_DateTime`. -/
structure Player_DateTime where
  first_seen : Int
  last_rejoin : Int
  last_seen : Int
  left : Option Int
deriving DecidableEq, Repr

/-- Mirror of `Player_DateTime.__init__` / `reset`. -/
def Player_DateTime.init (packet_datetime : Int) : Player_DateTime :=
  { first_seen := packet_datetime, last_rejoin := packet_datetime,
    last_seen := packet_datetime, left := none }

/-- Mirror of `MaxMind_GeoLite2_Compiled` (display-safe strings). -/
structure MaxMind_GeoLite2_Compiled where
  country : String
  country_code : String
  country_short : String
  city : String
  city_short : String
  asn : String
  asn_short : String
deriving DecidableEq, Repr

/-- Mirror of `MaxMind_GeoLite2_Compiled.__init__`: every field `"..."`. -/
def MaxMind_GeoLite2_Compiled.init : MaxMind_GeoLite2_Compiled :=
  { country := "...", country_code := "...", country_short := "...",
    city := "...", city_short := "...", asn := "...", asn_short := "..." }

/-- Mirror of `MaxMind_GeoLite2` (synchronous local-database lookup slot). -/
structure MaxMind_GeoLite2 where
  is_initialized : Bool
  compiled : MaxMind_GeoLite2_Compiled
  country : Option String
  country_code : Option String
  city : Option String
  asn : Option String
deriving DecidableEq, Repr

/-- Mirror of `MaxMind_GeoLite2.__init__`. -/
def MaxMind_GeoLite2.init : MaxMind_GeoLite2 :=
  { is_initialized := false, compiled := MaxMind_GeoLite2_Compiled.init,
    country := none, country_code := none, city := none, asn := none }

/-- Mirror of `IPAPI_Compiled` (display-safe strings). -/
structure IPAPI_Compiled where
  continent : String
  continent_code : String
  country : String
  country_code : String
  region : String
  region_short : String
  region_code : String
  city : String
  district : String
  zip_code : String
  lat : String
  lon : String
  time_zone : String
  offset : String
  currency : String
  org : String
  org_short : String
  isp : String
  isp_short : String
  _as : String
  as_short : String
  as_name : String
  as_name_short : String
  mobile : String
  proxy : String
  hosting : String
deriving DecidableEq, Repr

/-- Mirror of `IPAPI_Compiled.__init__`: every field `"..."`. -/
def IPAPI_Compiled.init : IPAPI_Compiled :=
  { continent := "...", continent_code := "...", country := "...",
    country_code := "...", region := "...", region_short := "...",
    region_code := "...", city := "...", district := "...", zip_code := "...",
    lat := "...", lon := "...", time_zone := "...", offset := "...",
    currency := "...", org := "...", org_short := "...", isp := "...",
    isp_short := "...", _as := "...", as_short := "...", as_name := "...",
    as_name_short := "...", mobile := "...", proxy := "...", hosting := "..." }

/-- Mirror of `IPAPI` (asynchronous remote batch lookup slot).  Raw numeric
fields (`lat`, `lon`, `offset`) are abstracted to `Int`; raw boolean fields
keep their type; string fields are `Option String` (`none` = Python `None`,
and the `"N/A"` placeholder is an ordinary string value). -/
structure IPAPI where
  is_initialized : Bool
  compiled : IPAPI_Compiled
  continent : Option String
  continent_code : Option String
  country : Option String
  country_code : Option String
  region : Option String
  region_code : Option String
  city : Option String
  district : Option String
  zip_code : Option String
  lat : Option Int
  lon : Option Int
  time_zone : Option String
  offset : Option Int
  currency : Option String
  org : Option String
  isp : Option String
  _as : Option String
  as_name : Option String
  mobile : Option Bool
  proxy : Option Bool
  hosting : Option Bool
deriving DecidableEq, Repr

/-- Mirror of `IPAPI.__init__`. -/
def IPAPI.init : IPAPI :=
  { is_initialized := false, compiled := IPAPI_Compiled.init,
    continent := none, continent_code := none, country := none,
    country_code := none, region := none, region_code := none, city := none,
    district := none, zip_code := none, lat := none, lon := none,
    time_zone := none, offset := none, currency := none, org := none,
    isp := none, _as := none, as_name := none, mobile := none, proxy := none,
    hosting := none }

/-- Mirror of `Player_IPLookup` (the two enrichment slots). -/
structure Player_IPLookup where
  maxmind : MaxMind_GeoLite2
  ipapi : IPAPI
deriving DecidableEq, Repr

/-- Mirror of `Player_IPLookup.__init__`. -/
def Player_IPLookup.init : Player_IPLookup :=
  { maxmind := MaxMind_GeoLite2.init, ipapi := IPAPI.init }

/-- Mirror of `Player_Detection`.  The `time` / `date_time` strings are
`strftime` renderings of the packet timestamp; we keep the timestamp itself
(the program only ever tests whether they are set). -/
structure Player_Detection where
  type : Option String
  time : Option Int
  date_time : Option Int
  as_processed_userip_task : Bool
deriving DecidableEq, Repr

/-- Mirror of `Player_Detection.__init__`. -/
def Player_Detection.init : Player_Detection :=
  { type := none, time := none, date_time := none,
    as_processed_userip_task := false }

/-- Mirror of `UserIP_Settings`.  The fields never inspected by the core
logic (colors, paths, protection modes) are carried as plain strings /
booleans; `build` and the matcher only copy them around. -/
structure UserIP_Settings where
  ENABLED : Bool
  COLOR : String
  LOG : Bool
  NOTIFICATIONS : Bool
  VOICE_NOTIFICATIONS : Option String
  PROTECTION : Option String
deriving DecidableEq, Repr

/-- Mirror of `Player_UserIp`. -/
structure Player_UserIp where
  database_name : Option String
  settings : Option UserIP_Settings
  usernames : List String
  detection : Player_Detection
deriving DecidableEq, Repr

/-- Mirror of `Player_UserIp.__init__` / `reset`. -/
def Player_UserIp.init : Player_UserIp :=
  { database_name := none, settings := none, usernames := [],
    detection := Player_Detection.init }

/-- Mirror of `Player_ModMenus`. -/
structure Player_ModMenus where
  usernames : List String
deriving DecidableEq, Repr

/-- Mirror of `Player`. -/
structure Player where
  is_player_just_registered : Bool
  ip : String
  rejoins : Nat
  packets : Nat
  total_packets : Nat
  usernames : List String
  pps : Player_PPS
  ports : Player_Ports
  datetime : Player_DateTime
  iplookup : Player_IPLookup
  userip : Player_UserIp
  mod_menus : Player_ModMenus
deriving DecidableEq, Repr

/-- Mirror of `Player.__init__` (which sets the just-registered flag and then
calls `_initialize`). -/
def Player.init (ip : String) (port : Nat) (packet_datetime : Int) : Player :=
  { is_player_just_registered := true
    ip := ip
    rejoins := 0
    packets := 1
    total_packets := 1
    usernames := []
    pps := Player_PPS.init packet_datetime
    ports := Player_Ports.init port
    datetime := Player_DateTime.init packet_datetime
    iplookup := Player_IPLookup.init
    userip := Player_UserIp.init
    mod_menus := { usernames := [] } }

/-! ### UserIP association data (`UserIP`, `UserIP_Databases` indices) -/

/-- Mirror of `UserIP` (one IP's association in `userip_infos_by_ip`). -/
structure UserIP where
  ip : String
  database_name : String
  settings : UserIP_Settings
  usernames : List String
deriving DecidableEq, Repr

/-- Association-list lookup, modelling a Python `dict` access
(`dict.get(key)` / `key in dict`).  Keys are unique by construction. -/
def assocFind (m : List (String × α)) (key : String) : Option α :=
  match m.find? (fun kv => kv.1 == key) with
  | some kv => some kv.2
  | none => none

/-- Mirror of `UserIP_Databases.update_player_userip_data`: copy the
association's database name, settings and usernames onto the player when the
IP is in the index; report whether a match occurred. -/
def update_player_userip_data (infos : List (String × UserIP)) (player : Player) :
    Player × Bool :=
  match assocFind infos player.ip with
  | some userip_data =>
      ({ player with userip := { player.userip with
            database_name := some userip_data.database_name
            settings := some userip_data.settings
            usernames := userip_data.usernames } }, true)
  | none => (player, false)

/-! ### Ingestion: per-player mutation of `packet_callback`

`processPacketPlayer` is the part of `packet_callback` (lines 2835-2868)
that runs after the player record has been fetched or created: the one-shot
UserIP detection block, the just-registered early return, and the
lifecycle/port bookkeeping.  The asynchronous `process_userip_task` hand-off
is an external side effect and is not part of the record state.
-/

/-- The settings consulted by `packet_callback`. -/
structure CaptureSettings where
  /-- `Settings.USERIP_ENABLED` -/
  userip_enabled : Bool
  /-- `Settings.STDOUT_RESET_PORTS_ON_REJOINS` -/
  reset_ports_on_rejoins : Bool
deriving DecidableEq, Repr

/-- Lines 2835-2842: the one-shot UserIP detection block.  `ips_set` models
`UserIP_Databases.ips_set`, `infos` models `UserIP_Databases.userip_infos_by_ip`. -/
def useripDetectionBlock (cfg : CaptureSettings) (ips_set : List String)
    (infos : List (String × UserIP)) (player : Player) (packet_datetime : Int) :
    Player :=
  if cfg.userip_enabled ∧ player.ip ∈ ips_set ∧
      player.userip.detection.as_processed_userip_task = false then
    let player := { player with userip := { player.userip with
        detection := { player.userip.detection with
          as_processed_userip_task := true
          type := some "Static IP"
          time := some packet_datetime
          date_time := some packet_datetime } } }
    (update_player_userip_data infos player).1
  else
    player

/-- Lines 2866-2868: append the port to `ports.list` if new and set
`ports.last`. -/
def appendPort (player : Player) (target_port : Nat) : Player :=
  let player :=
    if target_port ∈ player.ports.list then player
    else { player with ports := { player.ports with
            list := player.ports.list ++ [target_port] } }
  { player with ports := { player.ports with last := target_port } }

/-- Lines 2835-2868 of `packet_callback`: the full per-player mutation for
one packet (UserIP detection block, just-registered early return,
last-seen/counter updates, rejoin handling with optional port reset, port
bookkeeping). -/
def processPacketPlayer (cfg : CaptureSettings) (ips_set : List String)
    (infos : List (String × UserIP)) (player : Player) (target_port : Nat)
    (packet_datetime : Int) : Player :=
  let player := useripDetectionBlock cfg ips_set infos player packet_datetime
  if player.is_player_just_registered then
    { player with is_player_just_registered := false }
  else
    let player := { player with
      datetime := { player.datetime with last_seen := packet_datetime }
      total_packets := player.total_packets + 1
      pps := { player.pps with counter := player.pps.counter + 1 } }
    match player.datetime.left with
    | some _ =>
        let player := { player with
          datetime := { player.datetime with
            left := none
            last_rejoin := packet_datetime }
          rejoins := player.rejoins + 1
          packets := 1 }
        if cfg.reset_ports_on_rejoins then
          { player with ports := Player_Ports.init target_port }
        else
          appendPort player target_port
    | none =>
        appendPort { player with packets := player.packets + 1 } target_port

/-- Lines 2829-2868 of `packet_callback` at registry level: fetch or create
the record for the peer IP, then apply the per-player mutation.  The registry
is an association list keyed by IP (`PlayersRegistry.players_registry`). -/
def packet_callback_registry (cfg : CaptureSettings) (ips_set : List String)
    (infos : List (String × UserIP)) (registry : List (String × Player))
    (target_ip : String) (target_port : Nat) (packet_datetime : Int) :
    List (String × Player) :=
  match assocFind registry target_ip with
  | none =>
      registry ++ [(target_ip,
        processPacketPlayer cfg ips_set infos
          (Player.init target_ip target_port packet_datetime) target_port
          packet_datetime)]
  | some player =>
      registry.map (fun kv =>
        if kv.1 == target_ip then
          (kv.1, processPacketPlayer cfg ips_set infos player target_port
            packet_datetime)
        else kv)

/-! ### Presentation cycle: idle-timeout promotion to disconnected

Lines 3639-3647 of `rendering_core`: a connected player whose idle time
reaches `Settings.STDOUT_DISCONNECTED_PLAYERS_TIMER` is promoted to
disconnected (`left := last_seen`); if a UserIP detection had fired, its
one-shot flag is re-armed for the "disconnected" hand-off.  `timeout` and
`now` are in the same millisecond scale as the packet timestamps.
-/

/-- Model of the idle-timeout block of `rendering_core` (lines 3639-3647). -/
def renderIdleCheck (cfg : CaptureSettings) (timeout : Int) (now : Int)
    (player : Player) : Player :=
  if player.datetime.left = none ∧ now - player.datetime.last_seen ≥ timeout then
    let player := { player with
      datetime := { player.datetime with left := some player.datetime.last_seen } }
    if cfg.userip_enabled ∧ player.userip.detection.time ≠ none then
      { player with userip := { player.userip with
          detection := { player.userip.detection with
            as_processed_userip_task := false } } }
    else player
  else player

/-- An event acting on one player record: a packet processed by the ingestion
worker, or one presentation-cycle idle check. -/
inductive SnifferEvent where
  | packet (port : Nat) (t : Int) : SnifferEvent
  | render (now : Int) : SnifferEvent
deriving DecidableEq, Repr

/-- The wall-clock instant at which an event acts. -/
def SnifferEvent.time : SnifferEvent → Int
  | .packet _ t => t
  | .render now => now

/-- One event's effect on a player record. -/
def stepPlayer (cfg : CaptureSettings) (ips_set : List String)
    (infos : List (String × UserIP)) (timeout : Int) (player : Player) :
    SnifferEvent → Player
  | .packet port t => processPacketPlayer cfg ips_set infos player port t
  | .render now => renderIdleCheck cfg timeout now player

/-- A player record after a sequence of events. -/
def runTrace (cfg : CaptureSettings) (ips_set : List String)
    (infos : List (String × UserIP)) (timeout : Int) (player : Player)
    (events : List SnifferEvent) : Player :=
  events.foldl (stepPlayer cfg ips_set infos timeout) player

/-! ### Session-host heuristic (`SessionHost.get_host_player`)

The raised `ValueError` becomes an `Except.error`.  Python `sorted` is a
stable sort, modelled by `List.mergeSort` (also stable); the membership test
`potential not in players_pending_for_disconnection` becomes list membership.
-/

/-- The mutable `SessionHost` class state. -/
structure SessionHostState where
  player : Option Player
  search_player : Bool
  players_pending_for_disconnection : List Player
deriving DecidableEq

/-- The sort key of `get_host_player`: ascending `datetime.last_rejoin`. -/
def lastRejoinLe (a b : Player) : Bool :=
  decide (a.datetime.last_rejoin ≤ b.datetime.last_rejoin)

/-- The final confirmation step of `get_host_player`: the candidate becomes
host only if it is not pending disconnection and has ≥ 50 packets since its
last rejoin. -/
def confirmHost (st : SessionHostState) (potential : Player) : SessionHostState :=
  if potential ∉ st.players_pending_for_disconnection ∧ potential.packets ≥ 50 then
    { st with player := some potential, search_player := false }
  else st

/-- Mirror of `SessionHost.get_host_player` (lines 1155-1180).  The
`take 2` of the rejoin-sorted connected list has length 0, 1 or 2; length 1
and 2 are handled, anything else (only the empty list is possible) raises
`ValueError`. -/
def get_host_player (st : SessionHostState) (session_connected : List Player) :
    Except String SessionHostState :=
  let connected_players := (session_connected.mergeSort lastRejoinLe).take 2
  match connected_players with
  | [p0] => .ok (confirmHost st p0)
  | [p0, p1] =>
      if p1.datetime.last_rejoin - p0.datetime.last_rejoin ≥ 200 then
        .ok (confirmHost st p0)
      else .ok st
  | other =>
      .error ("Unexpected number of connected players: " ++ toString other.length)

/-! ### UserIP database build (`UserIP_Databases.build`)

`build` folds every `(database_name, settings, username→IPs)` tuple into a
fresh `userip_infos_by_ip` index and `ips_set`, collecting unresolved
conflicts; `notified_ip_conflicts` persists across rebuilds and conflicts
resolved since the previous build are removed from it at the end.  The
Python sets (`unresolved_conflicts`, `notified_ip_conflicts`, `ips_set`)
are lists queried only through membership; `_notify_conflict` message-box
invocations are recorded as events.
-/

/-- State threaded through `UserIP_Databases.build`'s loop. -/
structure BuildState where
  /-- the fresh `userip_infos_by_ip` being built -/
  infos : List (String × UserIP)
  /-- the fresh `ips_set` being built -/
  ips_set : List String
  /-- `unresolved_conflicts` -/
  unresolved : List String
  /-- `cls.notified_ip_conflicts` (persistent across rebuilds) -/
  notified : List String
  /-- the `_notify_conflict(initial_entry, database_name, username, ip)`
  invocations fired during this build, as `(ip, database_name, username)` -/
  notify_events : List (String × String × String)
deriving DecidableEq, Repr

/-- Append `username` to the usernames of the entry keyed `ip` (in-place
mutation of the `UserIP` object in the Python dict). -/
def appendUsername (m : List (String × UserIP)) (ip username : String) :
    List (String × UserIP) :=
  m.map (fun kv =>
    if kv.1 == ip then (kv.1, { kv.2 with usernames := kv.2.usernames ++ [username] })
    else kv)

/-- The body of `build`'s innermost loop (lines 1287-1305), for one
`(database_name, settings, username, ip)` combination: register the IP if
unseen, then either record a cross-database conflict (notifying at most once
per IP) or accumulate the username. -/
def processIp (database_name : String) (settings : UserIP_Settings)
    (username ip : String) (st : BuildState) : BuildState :=
  let st :=
    if assocFind st.infos ip = none then
      { st with
        infos := st.infos ++ [(ip,
          { ip := ip, database_name := database_name, settings := settings,
            usernames := [username] })]
        ips_set := st.ips_set ++ [ip] }
    else st
  match assocFind st.infos ip with
  | none => st
  | some info =>
      if info.database_name ≠ database_name then
        let st :=
          if ip ∈ st.notified then st
          else { st with
            notified := st.notified ++ [ip]
            notify_events := st.notify_events ++ [(ip, database_name, username)] }
        { st with unresolved := st.unresolved ++ [ip] }
      else if username ∈ info.usernames then st
      else { st with infos := appendUsername st.infos ip username }

/-- One database's contribution to `build`: fold over its username→IPs map. -/
def buildDatabase (st : BuildState)
    (db : String × UserIP_Settings × List (String × List String)) : BuildState :=
  db.2.2.foldl
    (fun st entry =>
      entry.2.foldl (fun st ip => processIp db.1 db.2.1 entry.1 ip st) st)
    st

/-- Mirror of `UserIP_Databases.build` (lines 1275-1312): rebuild the index
from `databases`, then drop from the persistent `notified` set every conflict
that is no longer unresolved.  Returns the full post-loop state with
`notified` already filtered. -/
def build (databases : List (String × UserIP_Settings × List (String × List String)))
    (notified : List String) : BuildState :=
  let st := databases.foldl buildDatabase
    { infos := [], ips_set := [], unresolved := [], notified := notified,
      notify_events := [] }
  { st with notified := st.notified.filter (fun ip => ip ∈ st.unresolved) }

/-! ### IP lookup orchestrator: batch construction (`iplookup_core`)

Lines 2562-2597: one cycle's batch of IPs for the remote request.  The
registry iteration order is the dict insertion order; `pending` models
`IPLookup._pending_ips_for_lookup` and is consumed through
`get_pending_ips_slice(0, remaining_space)` (`List.take`).
-/

/-- `MAX_BATCH_IP_API_IPS` -/
def MAX_BATCH_IP_API_IPS : Nat := 100

/-- The candidate-collection loop (lines 2566-2579).  Returns the connected
and disconnected candidate lists and `removed_disconnected_ip`.  When the
two lists together reach the cap, the most recently added disconnected
candidate is popped (and remembered); if there is none, the loop breaks. -/
def batchLoop : List Player → List String → List String → Option String →
    List String × List String × Option String
  | [], conn, disc, removed => (conn, disc, removed)
  | p :: rest, conn, disc, removed =>
      if p.iplookup.ipapi.is_initialized then batchLoop rest conn disc removed
      else
        let conn := if p.datetime.left = none then conn ++ [p.ip] else conn
        let disc := if p.datetime.left = none then disc else disc ++ [p.ip]
        if conn.length + disc.length = MAX_BATCH_IP_API_IPS then
          match disc.getLast? with
          | some last => batchLoop rest conn disc.dropLast (some last)
          | none => (conn, disc, removed)
        else batchLoop rest conn disc removed

/-- Lines 2562-2594: the full batch construction for one cycle, including
re-adding the popped disconnected candidate when exactly one slot is free,
the backfill from the pending list, and the final truncation to the cap. -/
def buildBatch (registry : List Player) (pending : List String) : List String :=
  let r := batchLoop registry [] [] none
  let ips_to_lookup := r.1 ++ r.2.1
  let ips_to_lookup :=
    if ips_to_lookup.length < MAX_BATCH_IP_API_IPS then
      match r.2.2 with
      | some removed_disconnected_ip =>
          if ips_to_lookup.length = MAX_BATCH_IP_API_IPS - 1 then
            ips_to_lookup ++ [removed_disconnected_ip]
          else
            ips_to_lookup ++ pending.take (MAX_BATCH_IP_API_IPS - ips_to_lookup.length)
      | none =>
          ips_to_lookup ++ pending.take (MAX_BATCH_IP_API_IPS - ips_to_lookup.length)
    else ips_to_lookup
  ips_to_lookup.take MAX_BATCH_IP_API_IPS

/-! ### IP lookup pending/results state (`IPLookup`)

The pending list and the results dict, with the operations the program
defines on them.  `add_pending_ip` raises on a duplicate (modelled as
`Except`); in this version of the program it has no call site, so the only
worker mutation of this state is the atomic remove-then-update performed
under `IPLookup.lock` by `iplookup_core` (lines 2736-2738).
-/

/-- The `IPLookup` class state: the pending list and the results dict. -/
structure IPLookupState where
  pending : List String
  results : List (String × IPAPI)
deriving DecidableEq

/-- The initial (module-load) `IPLookup` state: both containers empty. -/
def IPLookupState.init : IPLookupState := { pending := [], results := [] }

/-- Mirror of `IPLookup.add_pending_ip`: raises `ValueError` when the IP is
already pending. -/
def add_pending_ip (st : IPLookupState) (ip : String) :
    Except String IPLookupState :=
  if ip ∈ st.pending then
    .error ("IP address " ++ ip ++ " is already in the pending IP lookup list.")
  else .ok { st with pending := st.pending ++ [ip] }

/-- Mirror of `IPLookup.remove_pending_ip`: remove the IP from the pending
list when present (Python `list.remove` deletes the first occurrence). -/
def remove_pending_ip (st : IPLookupState) (ip : String) : IPLookupState :=
  if ip ∈ st.pending then { st with pending := st.pending.erase ip } else st

/-- Mirror of `IPLookup.update_results`: Python dict assignment
`_results_ips_for_lookup[ip] = result`. -/
def update_results (st : IPLookupState) (ip : String) (result : IPAPI) :
    IPLookupState :=
  if assocFind st.results ip = none then
    { st with results := st.results ++ [(ip, result)] }
  else
    { st with results := st.results.map (fun kv =>
        if kv.1 == ip then (kv.1, result) else kv) }

/-- The mutations of the `IPLookup` state actually performed by the running
workers: the single atomic remove-pending-then-update-results transition of
`iplookup_core` (lines 2736-2738, under `IPLookup.lock`).  `add_pending_ip`
has no call site in this version of the program, so no transition adds to
the pending list. -/
inductive IPLookupStep : IPLookupState → IPLookupState → Prop
  | lookupComplete (st : IPLookupState) (ip : String) (result : IPAPI) :
      IPLookupStep st (update_results (remove_pending_ip st ip) ip result)

/-- States of the `IPLookup` class reachable from module load through the
workers' operations. -/
def IPLookupReachable (st : IPLookupState) : Prop :=
  Relation.ReflTransGen IPLookupStep IPLookupState.init st

/-! ### Session-table sorting (`sort_session_table`, lines 3446-3477)

`sort_session_table(session_list, sorted_column_name, sorted_key)` reverse
sorts for the columns `"T. Packets"`, `"Packets"`, `"PPS"`; the
`"IP Address"` column is sorted by `ipaddress.ip_address` (numeric)
instead of by the attribute string; every other column sorts ascending by
the attribute named in `Settings.stdout_fields_mapping`.  The columns are
the keys of that mapping, modelled as an enumeration; Python's stable
`sorted(..., reverse=True)` is `mergeSort` with the flipped comparison
(stability: ties keep their original order in both directions).
-/

/-- The keys of `Settings.stdout_fields_mapping`. -/
inductive SortColumn where
  | firstSeen | lastRejoin | lastSeen | usernames | rejoins | tPackets
  | packets | pps | ipAddress | lastPort | intermediatePorts | firstPort
  | continent | country | region | rCode | city | district | zipCode
  | lat | lon | timeZone | offset | currency | organization | isp
  | asnIsp | asField | asn | mobile | vpn | hosting
deriving DecidableEq, Repr

/-- The column's display name (the key string of
`Settings.stdout_fields_mapping`). -/
def SortColumn.name : SortColumn → String
  | .firstSeen => "First Seen"
  | .lastRejoin => "Last Rejoin"
  | .lastSeen => "Last Seen"
  | .usernames => "Usernames"
  | .rejoins => "Rejoins"
  | .tPackets => "T. Packets"
  | .packets => "Packets"
  | .pps => "PPS"
  | .ipAddress => "IP Address"
  | .lastPort => "Last Port"
  | .intermediatePorts => "Intermediate Ports"
  | .firstPort => "First Port"
  | .continent => "Continent"
  | .country => "Country"
  | .region => "Region"
  | .rCode => "R. Code"
  | .city => "City"
  | .district => "District"
  | .zipCode => "ZIP Code"
  | .lat => "Lat"
  | .lon => "Lon"
  | .timeZone => "Time Zone"
  | .offset => "Offset"
  | .currency => "Currency"
  | .organization => "Organization"
  | .isp => "ISP"
  | .asnIsp => "ASN / ISP"
  | .asField => "AS"
  | .asn => "ASN"
  | .mobile => "Mobile"
  | .vpn => "VPN"
  | .hosting => "Hosting"

/-- A sort-key value as Python would compare it: an integer (counters,
ports, timestamps), a string, or a list compared lexicographically. -/
inductive SortValue where
  | num (n : Int) : SortValue
  | str (s : String) : SortValue
  | strList (l : List String) : SortValue
  | natList (l : List Nat) : SortValue
deriving DecidableEq, Repr

/-- Python `a <= b` on two sort-key values of the same kind, through the
lexicographic orders on strings (code points) and lists (element-wise, a
strict prefix is smaller), exactly Python's `str`/`list` comparisons.  For a
fixed column all keys have the same kind; mixed kinds would raise
`TypeError` in Python and are arbitrarily `true` here, unused. -/
def SortValue.le : SortValue → SortValue → Bool
  | .num a, .num b => decide (a ≤ b)
  | .str a, .str b => decide (a ≤ b)
  | .strList a, .strList b => decide (a ≤ b)
  | .natList a, .natList b => decide (a ≤ b)
  | _, _ => true

/-- The attribute each column sorts by (`Settings.stdout_fields_mapping`),
evaluated on a player as the comparable key value. -/
def fieldKey : SortColumn → Player → SortValue
  | .firstSeen, p => .num p.datetime.first_seen
  | .lastRejoin, p => .num p.datetime.last_rejoin
  | .lastSeen, p => .num p.datetime.last_seen
  | .usernames, p => .strList p.userip.usernames
  | .rejoins, p => .num p.rejoins
  | .tPackets, p => .num p.total_packets
  | .packets, p => .num p.packets
  | .pps, p => .num p.pps.rate
  | .ipAddress, p => .str p.ip
  | .lastPort, p => .num p.ports.last
  | .intermediatePorts, p => .natList p.ports.intermediate
  | .firstPort, p => .num p.ports.first
  | .continent, p => .str p.iplookup.ipapi.compiled.continent
  | .country, p => .str p.iplookup.maxmind.compiled.country
  | .region, p => .str p.iplookup.ipapi.compiled.region
  | .rCode, p => .str p.iplookup.ipapi.compiled.region_code
  | .city, p => .str p.iplookup.maxmind.compiled.city
  | .district, p => .str p.iplookup.ipapi.compiled.district
  | .zipCode, p => .str p.iplookup.ipapi.compiled.zip_code
  | .lat, p => .str p.iplookup.ipapi.compiled.lat
  | .lon, p => .str p.iplookup.ipapi.compiled.lon
  | .timeZone, p => .str p.iplookup.ipapi.compiled.time_zone
  | .offset, p => .str p.iplookup.ipapi.compiled.offset
  | .currency, p => .str p.iplookup.ipapi.compiled.currency
  | .organization, p => .str p.iplookup.ipapi.compiled.org
  | .isp, p => .str p.iplookup.ipapi.compiled.isp
  | .asnIsp, p => .str p.iplookup.maxmind.compiled.asn
  | .asField, p => .str p.iplookup.ipapi.compiled._as
  | .asn, p => .str p.iplookup.ipapi.compiled.as_name
  | .mobile, p => .str p.iplookup.ipapi.compiled.mobile
  | .vpn, p => .str p.iplookup.ipapi.compiled.proxy
  | .hosting, p => .str p.iplookup.ipapi.compiled.hosting

/-- Split a character list on a separator character. -/
def splitOnChar (sep : Char) : List Char → List (List Char)
  | [] => [[]]
  | c :: cs =>
      match splitOnChar sep cs with
      | [] => if c = sep then [[], []] else [[c]]
      | h :: t => if c = sep then [] :: h :: t else (c :: h) :: t

/-- Parse a non-empty run of decimal digits. -/
def digitsToNat? : List Char → Option Nat
  | [] => none
  | cs => cs.foldl
      (fun acc c =>
        match acc with
        | none => none
        | some n => if c.isDigit then some (n * 10 + (c.toNat - 48)) else none)
      (some 0)

/-- The numeric value `ipaddress.ip_address` orders IPv4 strings by.  An
invalid address (which would raise in Python) is mapped to 0; the session
tables only ever hold valid peer addresses. -/
def ipNat (s : String) : Nat :=
  match (splitOnChar '.' s.data).map digitsToNat? with
  | [some a, some b, some c, some d] =>
      if a ≤ 255 ∧ b ≤ 255 ∧ c ≤ 255 ∧ d ≤ 255 then
        ((a * 256 + b) * 256 + c) * 256 + d
      else 0
  | _ => 0

/-- Mirror of `sort_session_table` (lines 3446-3477).  Python
`sorted(l, key=k, reverse=r)` is the stable sort by `k`'s order, with the
comparison flipped when `r`; ties keep their original order either way,
which is exactly `mergeSort` with the corresponding boolean `le`. -/
def sort_session_table (session_list : List Player) (col : SortColumn) :
    List Player :=
  let must_reverse_sort := col.name ∈ ["T. Packets", "Packets", "PPS"]
  if col.name = "IP Address" then
    session_list.mergeSort (fun a b =>
      if must_reverse_sort then decide (ipNat b.ip ≤ ipNat a.ip)
      else decide (ipNat a.ip ≤ ipNat b.ip))
  else
    session_list.mergeSort (fun a b =>
      if must_reverse_sort then SortValue.le (fieldKey col b) (fieldKey col a)
      else SortValue.le (fieldKey col a) (fieldKey col b))

/-! ## Theorems -/

/-- The UserIP detection block only ever writes the `userip` component of the
player record. -/
theorem useripDetectionBlock_eq (cfg : CaptureSettings) (ips_set : List String)
    (infos : List (String × UserIP)) (p : Player) (t : Int) :
    ∃ u, useripDetectionBlock cfg ips_set infos p t = { p with userip := u } := by
  unfold useripDetectionBlock update_player_userip_data
  split
  · cases h : assocFind infos p.ip <;> simp [h]
  · exact ⟨p.userip, rfl⟩

/-- When UserIP matching is off or the IP is not in the UserIP set, the
detection block is the identity. -/
theorem useripDetectionBlock_no_match (cfg : CaptureSettings)
    (ips_set : List String) (infos : List (String × UserIP)) (p : Player)
    (t : Int) (h : ¬(cfg.userip_enabled = true ∧ p.ip ∈ ips_set)) :
    useripDetectionBlock cfg ips_set infos p t = p := by
  unfold useripDetectionBlock
  rw [if_neg]
  intro hc
  exact h ⟨hc.1, hc.2.1⟩

/-- `appendPort` writes only the `ports` component: it sets `last` and leaves
every non-port field of the record unchanged. -/
theorem appendPort_spec (p : Player) (port : Nat) :
    (appendPort p port).ports.last = port ∧
    (appendPort p port).datetime = p.datetime ∧
    (appendPort p port).rejoins = p.rejoins ∧
    (appendPort p port).packets = p.packets ∧
    (appendPort p port).total_packets = p.total_packets ∧
    (appendPort p port).is_player_just_registered = p.is_player_just_registered := by
  unfold appendPort
  split <;> simp

/-- `appendPort` never touches the just-registered flag. -/
theorem appendPort_flag (q : Player) (port : Nat) :
    (appendPort q port).is_player_just_registered = q.is_player_just_registered :=
  (appendPort_spec q port).2.2.2.2.2

/-- Case analysis of the per-packet player mutation: the just-registered
early return, the rejoin path, and the connected path, with the effect on
each lifecycle field. -/
theorem processPacketPlayer_spec (cfg : CaptureSettings) (ips_set : List String)
    (infos : List (String × UserIP)) (p : Player) (port : Nat) (t : Int) :
    (p.is_player_just_registered = true ∧
      (processPacketPlayer cfg ips_set infos p port t).is_player_just_registered
        = false ∧
      (processPacketPlayer cfg ips_set infos p port t).datetime = p.datetime ∧
      (processPacketPlayer cfg ips_set infos p port t).rejoins = p.rejoins ∧
      (processPacketPlayer cfg ips_set infos p port t).packets = p.packets ∧
      (processPacketPlayer cfg ips_set infos p port t).total_packets
        = p.total_packets ∧
      (processPacketPlayer cfg ips_set infos p port t).ports = p.ports ∧
      (processPacketPlayer cfg ips_set infos p port t).pps = p.pps) ∨
    (p.is_player_just_registered = false ∧ (∃ t0, p.datetime.left = some t0) ∧
      (processPacketPlayer cfg ips_set infos p port t).datetime =
        { p.datetime with last_seen := t, left := none, last_rejoin := t } ∧
      (processPacketPlayer cfg ips_set infos p port t).rejoins = p.rejoins + 1 ∧
      (processPacketPlayer cfg ips_set infos p port t).packets = 1 ∧
      (processPacketPlayer cfg ips_set infos p port t).total_packets
        = p.total_packets + 1 ∧
      (cfg.reset_ports_on_rejoins = true →
        (processPacketPlayer cfg ips_set infos p port t).ports =
          Player_Ports.init port) ∧
      (cfg.reset_ports_on_rejoins = false →
        (processPacketPlayer cfg ips_set infos p port t).ports.last = port)) ∨
    (p.is_player_just_registered = false ∧ p.datetime.left = none ∧
      (processPacketPlayer cfg ips_set infos p port t).datetime =
        { p.datetime with last_seen := t } ∧
      (processPacketPlayer cfg ips_set infos p port t).rejoins = p.rejoins ∧
      (processPacketPlayer cfg ips_set infos p port t).packets = p.packets + 1 ∧
      (processPacketPlayer cfg ips_set infos p port t).total_packets
        = p.total_packets + 1) := by
  obtain ⟨u, hu⟩ := useripDetectionBlock_eq cfg ips_set infos p t
  by_cases hreg : p.is_player_just_registered
  · exact Or.inl (by simp [processPacketPlayer, hu, hreg])
  · cases hleft : p.datetime.left with
    | some t0 =>
        refine Or.inr (Or.inl ⟨by simpa using hreg, ⟨t0, rfl⟩, ?_⟩)
        by_cases hrp : cfg.reset_ports_on_rejoins
        · simp [processPacketPlayer, hu, hreg, hleft, hrp]
        · simp only [processPacketPlayer, hu, hreg, hleft]
          simp only [Bool.false_eq_true, if_false, hrp]
          refine ⟨?_, ?_, ?_, ?_, ?_, ?_⟩ <;>
            simp [appendPort_spec, hrp]
    | none =>
        refine Or.inr (Or.inr ⟨by simpa using hreg, rfl, ?_⟩)
        simp only [processPacketPlayer, hu, hreg, hleft]
        refine ⟨?_, ?_, ?_, ?_⟩ <;> simp [appendPort_spec]

/-- Every processed packet leaves the just-registered flag cleared: the
early-return branch clears it and every other branch requires it already
cleared.  The flag is set only by the record constructor, so a record that
has processed its registration packet — handled by the same sequential
capture callback that created it — never shows the flag again. -/
theorem processPacketPlayer_clears_flag (cfg : CaptureSettings)
    (ips_set : List String) (infos : List (String × UserIP)) (p : Player)
    (port : Nat) (t : Int) :
    (processPacketPlayer cfg ips_set infos p port t).is_player_just_registered
      = false := by
  obtain ⟨u, hu⟩ := useripDetectionBlock_eq cfg ips_set infos p t
  by_cases hreg : p.is_player_just_registered
  · simp [processPacketPlayer, hu, hreg]
  · have hreg2 : p.is_player_just_registered = false := by simpa using hreg
    cases hleft : p.datetime.left with
    | some t0 =>
        by_cases hrp : cfg.reset_ports_on_rejoins
        · simp [processPacketPlayer, hu, hreg2, hleft, hrp]
        · simp [processPacketPlayer, hu, hreg2, hleft, hrp, appendPort_flag]
    | none =>
        simp [processPacketPlayer, hu, hreg2, hleft, appendPort_flag]

/-- The rendering-cycle idle check changes `left` only from `none` and only
when the idle timeout has elapsed, assigning it the `last_seen` value; it
never changes `last_seen`. -/
theorem renderIdleCheck_spec (cfg : CaptureSettings) (timeout now : Int)
    (p : Player) :
    ((renderIdleCheck cfg timeout now p).datetime.left ≠ p.datetime.left →
      p.datetime.left = none ∧ now - p.datetime.last_seen ≥ timeout ∧
      (renderIdleCheck cfg timeout now p).datetime.left =
        some p.datetime.last_seen) ∧
    (renderIdleCheck cfg timeout now p).datetime.last_seen =
      p.datetime.last_seen := by
  by_cases hcond : p.datetime.left = none ∧ now - p.datetime.last_seen ≥ timeout
  · simp only [renderIdleCheck, if_pos hcond]
    split <;> simp [hcond.1, hcond.2]
  · simp [renderIdleCheck, hcond]

/-- One event changes `last_seen` either not at all or to the event's own
time. -/
theorem stepPlayer_last_seen (cfg : CaptureSettings) (ips_set : List String)
    (infos : List (String × UserIP)) (timeout : Int) (p : Player)
    (e : SnifferEvent) :
    (stepPlayer cfg ips_set infos timeout p e).datetime.last_seen =
      p.datetime.last_seen ∨
    (stepPlayer cfg ips_set infos timeout p e).datetime.last_seen =
      SnifferEvent.time e := by
  cases e with
  | packet port t =>
      simp only [stepPlayer]
      rcases processPacketPlayer_spec cfg ips_set infos p port t with h | h | h
      · exact Or.inl (by rw [h.2.2.1])
      · exact Or.inr (by rw [h.2.2.1]; rfl)
      · exact Or.inr (by rw [h.2.2.1]; rfl)
  | render now =>
      exact Or.inl (renderIdleCheck_spec cfg timeout now p).2

/-- Along any trace whose event times are ordered and not earlier than the
record's current `last_seen`, the `last_seen` field never decreases. -/
theorem runTrace_last_seen_mono (cfg : CaptureSettings) (ips_set : List String)
    (infos : List (String × UserIP)) (timeout : Int) :
    ∀ (es : List SnifferEvent) (p : Player),
      (∀ e ∈ es, p.datetime.last_seen ≤ SnifferEvent.time e) →
      (es.map SnifferEvent.time).Pairwise (· ≤ ·) →
      p.datetime.last_seen ≤
        (runTrace cfg ips_set infos timeout p es).datetime.last_seen
  | [], _, _, _ => le_refl _
  | e :: rest, p, hall, hpw => by
      have h1 := stepPlayer_last_seen cfg ips_set infos timeout p e
      have hfirst : p.datetime.last_seen ≤ SnifferEvent.time e :=
        hall e (List.mem_cons_self ..)
      have hle1 : p.datetime.last_seen ≤
          (stepPlayer cfg ips_set infos timeout p e).datetime.last_seen := by
        rcases h1 with h | h
        · rw [h]
        · rw [h]; exact hfirst
      have hcons : (∀ a ∈ rest, SnifferEvent.time e ≤ SnifferEvent.time a) ∧
          List.Pairwise (fun x1 x2 => x1 ≤ x2) (rest.map SnifferEvent.time) := by
        simpa using hpw
      have hall2 : ∀ e2 ∈ rest,
          (stepPlayer cfg ips_set infos timeout p e).datetime.last_seen ≤
            SnifferEvent.time e2 := by
        intro e2 he2
        rcases h1 with h | h
        · rw [h]; exact hall e2 (List.mem_cons_of_mem _ he2)
        · rw [h]; exact hcons.1 e2 he2
      have hrest := runTrace_last_seen_mono cfg ips_set infos timeout rest
        (stepPlayer cfg ips_set infos timeout p e) hall2 hcons.2
      calc p.datetime.last_seen
          ≤ (stepPlayer cfg ips_set infos timeout p e).datetime.last_seen := hle1
        _ ≤ _ := hrest

/-- C1: for a disconnected player record, a subsequent packet is processed
as a rejoin.  The claim's scenario always has the just-registered flag
cleared: the flag is set only by the record constructor, and the first
conjunct shows every processed packet — in particular the registration
packet, handled by the same sequential capture callback that created the
record, at time `T0 = first_seen` — leaves the flag cleared, so a record
receiving a subsequent packet at `t1 > t0` satisfies the hypotheses of the
second conjunct.  That conjunct gives exactly the claimed effects: `left`
cleared, `last_rejoin` (and `last_seen`) set to `t1`, `rejoins` incremented,
the packets-since-rejoin counter reset to 1, and — when
reset-ports-on-rejoins is enabled — the ports structure reset to exactly
this packet's port, the early return leaving nothing else to run. -/
theorem C1_rejoin (cfg : CaptureSettings) (ips_set : List String)
    (infos : List (String × UserIP)) :
    (∀ (q : Player) (qport : Nat) (qt : Int),
      (processPacketPlayer cfg ips_set infos q qport qt).is_player_just_registered
        = false) ∧
    (∀ (p : Player) (port : Nat) (t0 t1 : Int),
      p.is_player_just_registered = false →
      p.datetime.left = some t0 → t0 < t1 →
      (processPacketPlayer cfg ips_set infos p port t1).datetime.left = none ∧
      (processPacketPlayer cfg ips_set infos p port t1).datetime.last_rejoin
        = t1 ∧
      (processPacketPlayer cfg ips_set infos p port t1).datetime.last_seen
        = t1 ∧
      (processPacketPlayer cfg ips_set infos p port t1).rejoins
        = p.rejoins + 1 ∧
      (processPacketPlayer cfg ips_set infos p port t1).packets = 1 ∧
      (cfg.reset_ports_on_rejoins = true →
        (processPacketPlayer cfg ips_set infos p port t1).ports =
          Player_Ports.init port)) := by
  refine ⟨processPacketPlayer_clears_flag cfg ips_set infos, ?_⟩
  intro p port t0 t1 hreg hleft ht
  rcases processPacketPlayer_spec cfg ips_set infos p port t1 with h | h | h
  · rw [hreg] at h
    exact absurd h.1 (by simp)
  · refine ⟨?_, ?_, ?_, h.2.2.2.1, h.2.2.2.2.1, h.2.2.2.2.2.2.1⟩ <;>
      rw [h.2.2.1]
  · rw [hleft] at h
    exact absurd h.2.1 (by simp)

/-- C1 witness: the registration packet of a fresh record clears the
just-registered flag, and a concrete disconnected record rejoining at t=300
(port reset enabled) shows the claimed effects. -/
theorem C1_rejoin_witness :
    (processPacketPlayer ⟨false, true⟩ [] [] (Player.init "1.2.3.4" 100 0)
      100 0).is_player_just_registered = false ∧
    (processPacketPlayer ⟨false, true⟩ [] []
      { Player.init "1.2.3.4" 100 0 with
        is_player_just_registered := false
        datetime := { Player_DateTime.init 0 with left := some 7 } }
      250 300).datetime.left = none ∧
    (processPacketPlayer ⟨false, true⟩ [] []
      { Player.init "1.2.3.4" 100 0 with
        is_player_just_registered := false
        datetime := { Player_DateTime.init 0 with left := some 7 } }
      250 300).datetime.last_rejoin = 300 ∧
    (processPacketPlayer ⟨false, true⟩ [] []
      { Player.init "1.2.3.4" 100 0 with
        is_player_just_registered := false
        datetime := { Player_DateTime.init 0 with left := some 7 } }
      250 300).ports = Player_Ports.init 250 := by
  have h := C1_rejoin ⟨false, true⟩ [] []
  have h2 := h.2
    { Player.init "1.2.3.4" 100 0 with
      is_player_just_registered := false
      datetime := { Player_DateTime.init 0 with left := some 7 } }
    250 7 300 (by decide) (by decide) (by decide)
  exact ⟨h.1 (Player.init "1.2.3.4" 100 0) 100 0, h2.1, h2.2.1,
    h2.2.2.2.2.2 (by decide)⟩

/-- C3 counterexample: on the very first packet from an unseen IP that is in
the UserIP set (with UserIP matching enabled), the created record is *not*
left exactly as the constructor initialised it apart from the cleared flag —
the UserIP detection metadata is set before the early return. -/
theorem C3_counterexample :
    packet_callback_registry ⟨true, false⟩ ["1.2.3.4"] [] [] "1.2.3.4" 100 0 =
      [("1.2.3.4",
        processPacketPlayer ⟨true, false⟩ ["1.2.3.4"] []
          (Player.init "1.2.3.4" 100 0) 100 0)] ∧
    (Player.init "1.2.3.4" 100 0).userip.detection.type = none ∧
    (processPacketPlayer ⟨true, false⟩ ["1.2.3.4"] []
      (Player.init "1.2.3.4" 100 0) 100 0).userip.detection.type =
        some "Static IP" ∧
    processPacketPlayer ⟨true, false⟩ ["1.2.3.4"] []
      (Player.init "1.2.3.4" 100 0) 100 0 ≠
      { Player.init "1.2.3.4" 100 0 with is_player_just_registered := false } := by
  decide

/-- C3 (amended): the first-ever packet from an unseen IP appends a freshly
constructed record to the registry and clears its just-registered flag; when
the IP is not a UserIP match (or UserIP matching is disabled) nothing else is
mutated, and in every case the counters, timestamps, ports and rate state are
left exactly as the constructor initialised them (only the UserIP detection
metadata may additionally be set). -/
theorem C3_first_packet (cfg : CaptureSettings) (ips_set : List String)
    (infos : List (String × UserIP)) (reg : List (String × Player))
    (ip : String) (port : Nat) (t : Int) (hnew : assocFind reg ip = none) :
    packet_callback_registry cfg ips_set infos reg ip port t =
      reg ++ [(ip, processPacketPlayer cfg ips_set infos
        (Player.init ip port t) port t)] ∧
    (¬(cfg.userip_enabled = true ∧ ip ∈ ips_set) →
      processPacketPlayer cfg ips_set infos (Player.init ip port t) port t =
        { Player.init ip port t with is_player_just_registered := false }) ∧
    (processPacketPlayer cfg ips_set infos (Player.init ip port t) port t
        ).is_player_just_registered = false ∧
    (processPacketPlayer cfg ips_set infos (Player.init ip port t) port t
        ).datetime = Player_DateTime.init t ∧
    (processPacketPlayer cfg ips_set infos (Player.init ip port t) port t
        ).ports = Player_Ports.init port ∧
    (processPacketPlayer cfg ips_set infos (Player.init ip port t) port t
        ).pps = Player_PPS.init t ∧
    (processPacketPlayer cfg ips_set infos (Player.init ip port t) port t
        ).packets = 1 ∧
    (processPacketPlayer cfg ips_set infos (Player.init ip port t) port t
        ).total_packets = 1 ∧
    (processPacketPlayer cfg ips_set infos (Player.init ip port t) port t
        ).rejoins = 0 := by
  have hspec := processPacketPlayer_spec cfg ips_set infos
    (Player.init ip port t) port t
  rcases hspec with h | h | h
  · obtain ⟨-, h2, hdt, hrj, hpk, htp, hpt, hpp⟩ := h
    refine ⟨by simp [packet_callback_registry, hnew], ?_, h2,
      by rw [hdt]; rfl, by rw [hpt]; rfl, by rw [hpp]; rfl, by rw [hpk]; rfl,
      by rw [htp]; rfl, by rw [hrj]; rfl⟩
    intro hno
    have hb := useripDetectionBlock_no_match cfg ips_set infos
      (Player.init ip port t) t (by simpa [Player.init] using hno)
    simp only [processPacketPlayer, hb]
    simp [Player.init]
  · exact absurd h.1 (by simp [Player.init])
  · exact absurd h.1 (by simp [Player.init])

/-- C3 witness: a concrete first packet from an unseen, non-UserIP IP leaves
the created record exactly as constructed apart from the cleared flag. -/
theorem C3_first_packet_witness :
    packet_callback_registry ⟨false, false⟩ [] [] [] "9.9.9.9" 4000 17 =
      [("9.9.9.9", processPacketPlayer ⟨false, false⟩ [] []
        (Player.init "9.9.9.9" 4000 17) 4000 17)] ∧
    processPacketPlayer ⟨false, false⟩ [] [] (Player.init "9.9.9.9" 4000 17)
        4000 17 =
      { Player.init "9.9.9.9" 4000 17 with is_player_just_registered := false } :=
  ⟨(C3_first_packet ⟨false, false⟩ [] [] [] "9.9.9.9" 4000 17 (by decide)).1,
   (C3_first_packet ⟨false, false⟩ [] [] [] "9.9.9.9" 4000 17 (by decide)).2.1
     (by decide)⟩

/-- C8: a player's `left` is set to a value only by the presentation cycle's
idle-timeout check — packet processing preserves a clear `left` and can only
clear a set one — the idle check sets `left` only when the timeout has
elapsed since `last_seen` and assigns it exactly `last_seen`, and along any
time-ordered event trace the `last_seen` of the record never decreases. -/
theorem C8_disconnect_only_by_timeout (cfg : CaptureSettings)
    (ips_set : List String) (infos : List (String × UserIP)) (timeout : Int) :
    (∀ (p : Player) (port : Nat) (t : Int), p.datetime.left = none →
      (processPacketPlayer cfg ips_set infos p port t).datetime.left = none) ∧
    (∀ (p : Player) (port : Nat) (t : Int),
      (processPacketPlayer cfg ips_set infos p port t).datetime.left =
        p.datetime.left ∨
      (processPacketPlayer cfg ips_set infos p port t).datetime.left = none) ∧
    (∀ (p : Player) (now : Int),
      (renderIdleCheck cfg timeout now p).datetime.left ≠ p.datetime.left →
      p.datetime.left = none ∧ now - p.datetime.last_seen ≥ timeout ∧
      (renderIdleCheck cfg timeout now p).datetime.left =
        some p.datetime.last_seen) ∧
    (∀ (p : Player) (es : List SnifferEvent),
      (∀ e ∈ es, p.datetime.last_seen ≤ SnifferEvent.time e) →
      (es.map SnifferEvent.time).Pairwise (· ≤ ·) →
      p.datetime.last_seen ≤
        (runTrace cfg ips_set infos timeout p es).datetime.last_seen) := by
  refine ⟨?_, ?_, ?_, ?_⟩
  · intro p port t hleft
    rcases processPacketPlayer_spec cfg ips_set infos p port t with h | h | h
    · rw [h.2.2.1]; exact hleft
    · rw [h.2.2.1]
    · rw [h.2.2.1]; exact hleft
  · intro p port t
    rcases processPacketPlayer_spec cfg ips_set infos p port t with h | h | h
    · exact Or.inl (by rw [h.2.2.1])
    · exact Or.inr (by rw [h.2.2.1])
    · exact Or.inl (by rw [h.2.2.1])
  · intro p now
    exact (renderIdleCheck_spec cfg timeout now p).1
  · intro p es hall hpw
    exact runTrace_last_seen_mono cfg ips_set infos timeout es p hall hpw

/-- C8 witness: concrete instances of the four conjuncts — a connected
record stays connected through packet processing, an idle record is promoted
with `left = last_seen` exactly at the timeout, and `last_seen` is monotone
along a concrete ordered trace. -/
theorem C8_disconnect_only_by_timeout_witness :
    (processPacketPlayer ⟨false, false⟩ [] []
      { Player.init "1.2.3.4" 100 0 with is_player_just_registered := false }
      100 5).datetime.left = none ∧
    ((Player.init "1.2.3.4" 100 0).datetime.left = none ∧
      (10000 : Int) - (Player.init "1.2.3.4" 100 0).datetime.last_seen ≥ 10000 ∧
      (renderIdleCheck ⟨false, false⟩ 10000 10000
        (Player.init "1.2.3.4" 100 0)).datetime.left = some 0) ∧
    (Player.init "1.2.3.4" 100 0).datetime.last_seen ≤
      (runTrace ⟨false, false⟩ [] [] 10000 (Player.init "1.2.3.4" 100 0)
        [SnifferEvent.packet 100 5, SnifferEvent.render 10]).datetime.last_seen := by
  have h := C8_disconnect_only_by_timeout ⟨false, false⟩ [] [] 10000
  refine ⟨h.1 _ 100 5 (by decide), ?_, h.2.2.2 _ _ (by decide) (by decide)⟩
  have h3 := h.2.2.1 (Player.init "1.2.3.4" 100 0) 10000 (by decide)
  exact ⟨h3.1, h3.2.1, by rw [h3.2.2]; rfl⟩

/-- C2 counterexample: a packet whose two endpoints are both private
addresses (192.168.1.1 and 10.0.0.1) is silently skipped by the
classification, not treated as a fatal, process-terminating failure — the
claim that both-private packets fail fatally is false. -/
theorem C2_counterexample :
    is_private_device_ipv4 ⟨192, 168, 1, 1⟩ = true ∧
    is_private_device_ipv4 ⟨10, 0, 0, 1⟩ = true ∧
    classify_no_capture_ip ⟨192, 168, 1, 1⟩ ⟨10, 0, 0, 1⟩ (some 100) (some 200) =
      ClassifyResult.skip ∧
    ClassifyResult.skip ≠ ClassifyResult.fatal := by
  decide

/-- C2 (amended): with no fixed capture IP, the packet callback silently
skips a packet when both endpoints are private, and fails fatally when
neither endpoint is private; fatal termination happens only in the
neither-private case or when the determined peer port is missing. -/
theorem C2_private_classification (src dst : IPv4) (srcport dstport : Option Nat) :
    (is_private_device_ipv4 src = true → is_private_device_ipv4 dst = true →
      classify_no_capture_ip src dst srcport dstport = .skip) ∧
    (is_private_device_ipv4 src = false → is_private_device_ipv4 dst = false →
      classify_no_capture_ip src dst srcport dstport = .fatal) ∧
    (classify_no_capture_ip src dst srcport dstport = .fatal →
      (is_private_device_ipv4 src = false ∧ is_private_device_ipv4 dst = false) ∨
      srcport = none ∨ dstport = none) := by
  refine ⟨fun hs hd => by simp [classify_no_capture_ip, hs, hd], ?_, ?_⟩
  · intro hs hd
    simp [classify_no_capture_ip, hs, hd]
  · intro h
    by_cases hs : is_private_device_ipv4 src
    · by_cases hd : is_private_device_ipv4 dst
      · simp [classify_no_capture_ip, hs, hd] at h
      · cases dstport with
        | some p => simp [classify_no_capture_ip, hs, hd] at h
        | none => exact Or.inr (Or.inr rfl)
    · by_cases hd : is_private_device_ipv4 dst
      · cases srcport with
        | some p => simp [classify_no_capture_ip, hs, hd] at h
        | none => exact Or.inr (Or.inl rfl)
      · exact Or.inl ⟨by simpa using hs, by simpa using hd⟩

/-- C2 witness: concrete instances of the three conjuncts — a both-private
packet is skipped, a neither-private packet is fatal, and that fatal outcome
indeed falls in the neither-private case. -/
theorem C2_private_classification_witness :
    classify_no_capture_ip ⟨172, 16, 0, 1⟩ ⟨192, 168, 0, 9⟩ (some 1) (some 2) =
      ClassifyResult.skip ∧
    classify_no_capture_ip ⟨8, 8, 8, 8⟩ ⟨9, 9, 9, 9⟩ (some 1) (some 2) =
      ClassifyResult.fatal :=
  ⟨(C2_private_classification ⟨172, 16, 0, 1⟩ ⟨192, 168, 0, 9⟩ (some 1) (some 2)).1
      (by decide) (by decide),
   (C2_private_classification ⟨8, 8, 8, 8⟩ ⟨9, 9, 9, 9⟩ (some 1) (some 2)).2.1
      (by decide) (by decide)⟩

/-- C10: calling `get_host_player` with an empty connected list raises
`ValueError` (an error result, not a silent no-op), and every non-empty
connected list returns normally, because the rejoin-sorted candidate list is
truncated to at most two entries. -/
theorem C10_get_host_player_totality :
    (∀ st : SessionHostState, ∃ e, get_host_player st [] = .error e) ∧
    (∀ (st : SessionHostState) (l : List Player), l ≠ [] →
      ∃ st2, get_host_player st l = .ok st2) := by
  constructor
  · intro st
    refine ⟨"Unexpected number of connected players: " ++ toString (0 : Nat), ?_⟩
    simp [get_host_player]
  · intro st l hl
    have hlen : (l.mergeSort lastRejoinLe).length = l.length :=
      List.length_mergeSort ..
    rcases hms : l.mergeSort lastRejoinLe with _ | ⟨p0, _ | ⟨p1, rest⟩⟩
    · rw [hms] at hlen
      exact absurd (List.length_eq_zero.mp hlen.symm) hl
    · refine ⟨confirmHost st p0, ?_⟩
      simp [get_host_player, hms]
    · by_cases hgap : p1.datetime.last_rejoin - p0.datetime.last_rejoin ≥ 200
      · refine ⟨confirmHost st p0, ?_⟩
        simp [get_host_player, hms, hgap]
      · refine ⟨st, ?_⟩
        simp [get_host_player, hms, hgap]

/-- C10 witness: at the concrete inputs, the empty list errors and a
one-element list returns normally. -/
theorem C10_get_host_player_totality_witness :
    (∃ e, get_host_player ⟨none, true, []⟩ [] = .error e) ∧
    (∃ st2, get_host_player ⟨none, true, []⟩ [Player.init "1.2.3.4" 100 0] = .ok st2) :=
  ⟨C10_get_host_player_totality.1 ⟨none, true, []⟩,
   C10_get_host_player_totality.2 ⟨none, true, []⟩ [Player.init "1.2.3.4" 100 0]
     (by simp)⟩

/-- C4: with exactly two connected players, a rejoin-time gap below 200ms
selects no host (the state is unchanged); with a gap of at least 200ms, the
earlier-rejoined player is confirmed as host exactly when it is not pending
disconnection and has at least 50 packets since its last rejoin. -/
theorem C4_session_host (st : SessionHostState) (a b : Player)
    (hle : a.datetime.last_rejoin ≤ b.datetime.last_rejoin) :
    (b.datetime.last_rejoin - a.datetime.last_rejoin < 200 →
      get_host_player st [a, b] = .ok st) ∧
    (b.datetime.last_rejoin - a.datetime.last_rejoin ≥ 200 →
      a ∉ st.players_pending_for_disconnection → a.packets ≥ 50 →
      get_host_player st [a, b] = .ok
        { st with player := some a, search_player := false }) := by
  have hsorted : [a, b].mergeSort lastRejoinLe = [a, b] :=
    List.mergeSort_of_sorted (by simp [List.pairwise_cons, lastRejoinLe, hle])
  constructor
  · intro hgap
    simp [get_host_player, hsorted, not_le.mpr hgap]
  · intro hgap hpend h50
    simp [get_host_player, hsorted, hgap, confirmHost, hpend, h50]

/-- C4 witness: with rejoin times 0 and 150 no host is selected; with rejoin
times 0 and 250 and 50 packets the earlier player becomes host. -/
theorem C4_session_host_witness :
    get_host_player ⟨none, true, []⟩
      [{ Player.init "10.0.0.1" 100 0 with packets := 50 },
       Player.init "10.0.0.2" 101 150] = .ok ⟨none, true, []⟩ ∧
    get_host_player ⟨none, true, []⟩
      [{ Player.init "10.0.0.1" 100 0 with packets := 50 },
       Player.init "10.0.0.2" 101 250] =
      .ok ⟨some { Player.init "10.0.0.1" 100 0 with packets := 50 }, false, []⟩ :=
  ⟨(C4_session_host ⟨none, true, []⟩
      { Player.init "10.0.0.1" 100 0 with packets := 50 }
      (Player.init "10.0.0.2" 101 150) (by decide)).1 (by decide),
   (C4_session_host ⟨none, true, []⟩
      { Player.init "10.0.0.1" 100 0 with packets := 50 }
      (Player.init "10.0.0.2" 101 250) (by decide)).2 (by decide) (by decide)
      (by decide)⟩

/-- In every reachable `IPLookup` state the pending list is empty: the only
worker transition removes from it, and `add_pending_ip` has no call site. -/
theorem reachable_pending_nil (st : IPLookupState) (h : IPLookupReachable st) :
    st.pending = [] := by
  induction h with
  | refl => rfl
  | tail _ hstep ih =>
      cases hstep with
      | lookupComplete ip result =>
          rename_i s _
          have h1 : (remove_pending_ip s ip).pending = [] := by
            simp [remove_pending_ip, ih]
          unfold update_results
          split <;> simpa using h1

/-- C9: in every state of the `IPLookup` pending/results structures reachable
through the operations the workers actually invoke (the atomic
remove-pending/update-results transition of `iplookup_core`; `add_pending_ip`
is never called in this version), no IP is simultaneously in the pending list
and in the results map. -/
theorem C9_pending_results_disjoint (st : IPLookupState)
    (h : IPLookupReachable st) (ip : String) :
    ¬(ip ∈ st.pending ∧ ip ∈ st.results.map Prod.fst) := by
  intro hc
  have hp := reachable_pending_nil st h
  rw [hp] at hc
  exact absurd hc.1 (List.not_mem_nil ip)

/-- C9 witness: the state after one completed lookup of a concrete IP is
reachable and satisfies the disjointness for that IP. -/
theorem C9_pending_results_disjoint_witness :
    ¬("1.2.3.4" ∈ (update_results (remove_pending_ip IPLookupState.init "1.2.3.4")
        "1.2.3.4" IPAPI.init).pending ∧
      "1.2.3.4" ∈ (update_results (remove_pending_ip IPLookupState.init "1.2.3.4")
        "1.2.3.4" IPAPI.init).results.map Prod.fst) :=
  C9_pending_results_disjoint _
    (Relation.ReflTransGen.single
      (IPLookupStep.lookupComplete IPLookupState.init "1.2.3.4" IPAPI.init))
    "1.2.3.4"

/-- C5: when the same IP appears under two different database names, the
first-seen association (name, settings, usernames) wins and the conflicting
username is not merged; the conflict notification fires exactly once per IP
and is suppressed on rebuilds where the IP is already in the notified set;
the IP stays in the notified set while the conflict persists; and a rebuild
in which the IP appears only under its original database leaves the notified
set empty again. -/
theorem C5_userip_conflict (dbA dbB uA uB X : String)
    (sA sB : UserIP_Settings) (notified0 : List String) (hAB : dbA ≠ dbB) :
    assocFind (build [(dbA, sA, [(uA, [X])]), (dbB, sB, [(uB, [X])])]
        notified0).infos X =
      some { ip := X, database_name := dbA, settings := sA, usernames := [uA] } ∧
    X ∈ (build [(dbA, sA, [(uA, [X])]), (dbB, sB, [(uB, [X])])]
        notified0).notified ∧
    (X ∉ notified0 →
      (build [(dbA, sA, [(uA, [X])]), (dbB, sB, [(uB, [X])])]
        notified0).notify_events = [(X, dbB, uB)]) ∧
    (X ∈ notified0 →
      (build [(dbA, sA, [(uA, [X])]), (dbB, sB, [(uB, [X])])]
        notified0).notify_events = []) ∧
    (∀ notified1 : List String,
      (build [(dbA, sA, [(uA, [X])])] notified1).notified = []) := by
  have hBA : ¬(dbA ≠ dbB) = False := by simp [hAB]
  by_cases hX : X ∈ notified0
  · refine ⟨?_, ?_, fun hc => absurd hX hc, fun _ => ?_, fun notified1 => ?_⟩ <;>
      simp [build, buildDatabase, processIp, assocFind, appendUsername, hAB, hX]
  · refine ⟨?_, ?_, fun _ => ?_, fun hc => absurd hc hX, fun notified1 => ?_⟩ <;>
      simp [build, buildDatabase, processIp, assocFind, appendUsername, hAB, hX]

/-- C5 witness: the spec's concrete scenario — database A assigns 1.2.3.4 to
alice, database B assigns it to bob; A's association is kept, one conflict is
notified, and a rebuild with only A clears the notified set. -/
theorem C5_userip_conflict_witness :
    assocFind (build
        [("A", ⟨true, "RED", false, false, none, none⟩, [("alice", ["1.2.3.4"])]),
         ("B", ⟨true, "BLUE", false, false, none, none⟩, [("bob", ["1.2.3.4"])])]
        []).infos "1.2.3.4" =
      some { ip := "1.2.3.4", database_name := "A",
             settings := ⟨true, "RED", false, false, none, none⟩,
             usernames := ["alice"] } ∧
    (build
        [("A", ⟨true, "RED", false, false, none, none⟩, [("alice", ["1.2.3.4"])]),
         ("B", ⟨true, "BLUE", false, false, none, none⟩, [("bob", ["1.2.3.4"])])]
        []).notify_events = [("1.2.3.4", "B", "bob")] ∧
    (∀ notified1 : List String,
      (build [("A", ⟨true, "RED", false, false, none, none⟩,
        [("alice", ["1.2.3.4"])])] notified1).notified = []) :=
  ⟨(C5_userip_conflict "A" "B" "alice" "bob" "1.2.3.4"
      ⟨true, "RED", false, false, none, none⟩
      ⟨true, "BLUE", false, false, none, none⟩ [] (by decide)).1,
   (C5_userip_conflict "A" "B" "alice" "bob" "1.2.3.4"
      ⟨true, "RED", false, false, none, none⟩
      ⟨true, "BLUE", false, false, none, none⟩ [] (by decide)).2.2.1
      (by decide),
   (C5_userip_conflict "A" "B" "alice" "bob" "1.2.3.4"
      ⟨true, "RED", false, false, none, none⟩
      ⟨true, "BLUE", false, false, none, none⟩ [] (by decide)).2.2.2.2⟩

/-- For a fixed column the key comparison is transitive (all keys of one
column have the same kind). -/
theorem fieldKey_le_trans (col : SortColumn) (a b c : Player)
    (h1 : SortValue.le (fieldKey col a) (fieldKey col b) = true)
    (h2 : SortValue.le (fieldKey col b) (fieldKey col c) = true) :
    SortValue.le (fieldKey col a) (fieldKey col c) = true := by
  cases col <;>
    simp only [fieldKey, SortValue.le, decide_eq_true_eq] at h1 h2 ⊢ <;>
    exact h1.trans h2

/-- For a fixed column the key comparison is total. -/
theorem fieldKey_le_total (col : SortColumn) (a b : Player) :
    (SortValue.le (fieldKey col a) (fieldKey col b) ||
      SortValue.le (fieldKey col b) (fieldKey col a)) = true := by
  cases col <;>
    simp only [fieldKey, SortValue.le, Bool.or_eq_true, decide_eq_true_eq] <;>
    exact le_total ..

/-- C7 counterexample: "Rejoins" is a numeric column (its sort key is the
integer rejoin counter), yet sorting by it is ascending, not descending —
two players with 1 and 2 rejoins come out in ascending order. -/
theorem C7_counterexample :
    fieldKey .rejoins { Player.init "1.1.1.1" 10 0 with rejoins := 1 } =
      .num 1 ∧
    fieldKey .rejoins { Player.init "2.2.2.2" 20 0 with rejoins := 2 } =
      .num 2 ∧
    sort_session_table
      [{ Player.init "1.1.1.1" 10 0 with rejoins := 1 },
       { Player.init "2.2.2.2" 20 0 with rejoins := 2 }] .rejoins =
      [{ Player.init "1.1.1.1" 10 0 with rejoins := 1 },
       { Player.init "2.2.2.2" 20 0 with rejoins := 2 }] ∧
    [{ Player.init "1.1.1.1" 10 0 with rejoins := 1 },
       { Player.init "2.2.2.2" 20 0 with rejoins := 2 }] ≠
      [{ Player.init "2.2.2.2" 20 0 with rejoins := 2 },
       { Player.init "1.1.1.1" 10 0 with rejoins := 1 }] := by
  refine ⟨by decide, by decide, ?_, by decide⟩
  unfold sort_session_table
  dsimp only
  rw [if_neg (by decide : ¬(SortColumn.rejoins.name = "IP Address"))]
  exact List.mergeSort_of_sorted (by decide)

/-- C7 (amended): `sort_session_table` is a permutation of its input; the
columns "T. Packets", "Packets" and "PPS" sort descending; every other
column — including the numeric "Rejoins", "First Port" and "Last Port"
columns — sorts ascending; and the "IP Address" column sorts by the numeric
address value (so 10.0.0.2 orders before 10.0.0.10), not lexicographically. -/
theorem C7_sort_directions (col : SortColumn) (l : List Player) :
    (sort_session_table l col).Perm l ∧
    (col.name ∈ ["T. Packets", "Packets", "PPS"] →
      (sort_session_table l col).Pairwise
        (fun a b => SortValue.le (fieldKey col b) (fieldKey col a) = true)) ∧
    (col.name ∉ ["T. Packets", "Packets", "PPS"] → ¬col.name = "IP Address" →
      (sort_session_table l col).Pairwise
        (fun a b => SortValue.le (fieldKey col a) (fieldKey col b) = true)) ∧
    (col.name = "IP Address" →
      (sort_session_table l col).Pairwise
        (fun a b => ipNat a.ip ≤ ipNat b.ip)) ∧
    ipNat "10.0.0.2" < ipNat "10.0.0.10" := by
  refine ⟨?_, ?_, ?_, ?_, by decide⟩
  · unfold sort_session_table
    dsimp only
    split <;> exact List.mergeSort_perm ..
  · intro hmem
    have hip : ¬col.name = "IP Address" := by
      intro h
      rw [h] at hmem
      exact absurd hmem (by decide)
    have hcond : (col.name ∈ ["T. Packets", "Packets", "PPS"]) = True :=
      eq_true hmem
    unfold sort_session_table
    dsimp only
    rw [if_neg hip]
    simp only [hcond, if_true]
    exact List.sorted_mergeSort
      (fun a b c h1 h2 => fieldKey_le_trans col c b a h2 h1)
      (fun a b => by rw [Bool.or_comm]; exact fieldKey_le_total col a b) l
  · intro hmem hip
    have hcond : (col.name ∈ ["T. Packets", "Packets", "PPS"]) = False :=
      eq_false hmem
    unfold sort_session_table
    dsimp only
    rw [if_neg hip]
    simp only [hcond, if_false]
    exact List.sorted_mergeSort
      (fun a b c h1 h2 => fieldKey_le_trans col a b c h1 h2)
      (fun a b => fieldKey_le_total col a b) l
  · intro hip
    have hcond : (col.name ∈ ["T. Packets", "Packets", "PPS"]) = False := by
      rw [hip]; simp
    unfold sort_session_table
    dsimp only
    rw [if_pos hip]
    simp only [hcond, if_false]
    have hs := @List.sorted_mergeSort Player
      (fun a b : Player => decide (ipNat a.ip ≤ ipNat b.ip))
      (fun a b c h1 h2 => by
        simp only [decide_eq_true_eq] at h1 h2 ⊢
        exact h1.trans h2)
      (fun a b => by
        simp only [Bool.or_eq_true, decide_eq_true_eq]
        exact le_total ..) l
    exact hs.imp (fun h => by simpa using h)

/-- C7 witness: concrete instances — sorting two players by "T. Packets" is
descending, by "Usernames" ascending, and by "IP Address" numerically
ascending. -/
theorem C7_sort_directions_witness :
    (sort_session_table [Player.init "10.0.0.10" 1 0, Player.init "10.0.0.2" 2 0]
        .tPackets).Pairwise
      (fun a b => SortValue.le (fieldKey .tPackets b) (fieldKey .tPackets a)
        = true) ∧
    (sort_session_table [Player.init "10.0.0.10" 1 0, Player.init "10.0.0.2" 2 0]
        .usernames).Pairwise
      (fun a b => SortValue.le (fieldKey .usernames a) (fieldKey .usernames b)
        = true) ∧
    (sort_session_table [Player.init "10.0.0.10" 1 0, Player.init "10.0.0.2" 2 0]
        .ipAddress).Pairwise (fun a b => ipNat a.ip ≤ ipNat b.ip) :=
  ⟨(C7_sort_directions .tPackets
      [Player.init "10.0.0.10" 1 0, Player.init "10.0.0.2" 2 0]).2.1
      (by decide),
   (C7_sort_directions .usernames
      [Player.init "10.0.0.10" 1 0, Player.init "10.0.0.2" 2 0]).2.2.1
      (by decide) (by decide),
   (C7_sort_directions .ipAddress
      [Player.init "10.0.0.10" 1 0, Player.init "10.0.0.2" 2 0]).2.2.2.1
      (by decide)⟩

/-- Multiset bound for the candidate-collection loop: every IP occurs in the
collected lists (connected ++ disconnected ++ remembered-removed) at most as
often as in the accumulators and the registry ips together. -/
theorem batchLoop_count (x : String) :
    ∀ (ps : List Player) (conn disc : List String) (rem : Option String),
    ((batchLoop ps conn disc rem).1 ++ (batchLoop ps conn disc rem).2.1 ++
      (batchLoop ps conn disc rem).2.2.toList).count x ≤
    (conn ++ disc ++ rem.toList ++ ps.map (fun p => p.ip)).count x
  | [], conn, disc, rem => by simp [batchLoop]
  | p :: rest, conn, disc, rem => by
      simp only [batchLoop]
      by_cases hinit : p.iplookup.ipapi.is_initialized = true
      · simp only [hinit, if_true]
        have ih := batchLoop_count x rest conn disc rem
        simp only [List.map_cons, List.count_append, List.count_cons, List.count_nil] at ih ⊢
        omega
      · simp only [hinit, Bool.false_eq_true, if_false]
        by_cases hleft : p.datetime.left = none
        · simp only [hleft, eq_self_iff_true, if_true]
          by_cases hcap :
              (conn ++ [p.ip]).length + disc.length = MAX_BATCH_IP_API_IPS
          · simp only [if_pos hcap]
            cases hlast : disc.getLast? with
            | some last =>
                obtain ⟨ys, hys⟩ := List.getLast?_eq_some_iff.mp hlast
                have hdl : disc.dropLast = ys := by
                  rw [hys]
                  exact List.dropLast_concat
                have hcount : disc.count x = ys.count x + List.count x [last] := by
                  rw [hys, List.count_append]
                have ih := batchLoop_count x rest (conn ++ [p.ip])
                  disc.dropLast (some last)
                rw [hdl] at ih ⊢
                simp only [List.map_cons, List.count_append, List.count_cons, List.count_nil,
                  Option.toList_some, List.count_singleton] at ih hcount ⊢
                omega
            | none =>
                simp only [List.map_cons, List.count_append, List.count_cons, List.count_nil]
                omega
          · simp only [if_neg hcap]
            have ih := batchLoop_count x rest (conn ++ [p.ip]) disc rem
            simp only [List.map_cons, List.count_append, List.count_cons, List.count_nil] at ih ⊢
            omega
        · simp only [if_neg hleft]
          by_cases hcap :
              conn.length + (disc ++ [p.ip]).length = MAX_BATCH_IP_API_IPS
          · simp only [if_pos hcap]
            cases hlast : (disc ++ [p.ip]).getLast? with
            | some last =>
                have hlasteq : last = p.ip := by
                  have h2 : (disc ++ [p.ip]).getLast? = some p.ip :=
                    List.getLast?_concat ..
                  rw [hlast] at h2
                  exact Option.some_inj.mp h2
                subst hlasteq
                have hdl : (disc ++ [p.ip]).dropLast = disc :=
                  List.dropLast_concat
                have ih := batchLoop_count x rest conn
                  (disc ++ [p.ip]).dropLast (some p.ip)
                rw [hdl] at ih ⊢
                simp only [List.map_cons, List.count_append, List.count_cons, List.count_nil,
                  Option.toList_some, List.count_singleton] at ih ⊢
                omega
            | none =>
                exact absurd hlast (by simp)
          · simp only [if_neg hcap]
            have ih := batchLoop_count x rest conn (disc ++ [p.ip]) rem
            simp only [List.map_cons, List.count_append, List.count_cons, List.count_nil] at ih ⊢
            omega

/-- The collected candidate lists form a sub-permutation of the accumulators
plus the registry ips. -/
theorem batchLoop_subperm (ps : List Player) (conn disc : List String)
    (rem : Option String) :
    List.Subperm
      ((batchLoop ps conn disc rem).1 ++ (batchLoop ps conn disc rem).2.1 ++
        (batchLoop ps conn disc rem).2.2.toList)
      (conn ++ disc ++ rem.toList ++ ps.map (fun p => p.ip)) :=
  List.subperm_ext_iff.mpr (fun y _ => batchLoop_count y ps conn disc rem)

/-- A sub-permutation of a duplicate-free list is duplicate-free. -/
theorem subperm_nodup {α : Type} [DecidableEq α] {l₁ l₂ : List α}
    (h : List.Subperm l₁ l₂) (hn : l₂.Nodup) : l₁.Nodup := by
  obtain ⟨l, hperm, hsub⟩ := h
  exact hperm.nodup (List.Nodup.sublist hsub hn)

/-- C6: with a duplicate-free registry (one record per IP) and a
duplicate-free pending backlog disjoint from the registry ips (in this
version of the program the pending list is always empty), the batch built by
one `iplookup_core` cycle has no duplicate IPs and at most 100 entries. -/
theorem C6_batch_nodup_and_bounded (registry : List Player)
    (pending : List String)
    (hreg : (registry.map (fun p => p.ip)).Nodup)
    (hpend : pending.Nodup)
    (hdisj : ∀ y ∈ pending, y ∉ registry.map (fun p => p.ip)) :
    (buildBatch registry pending).Nodup ∧
    (buildBatch registry pending).length ≤ MAX_BATCH_IP_API_IPS := by
  have hsub : List.Subperm
      ((batchLoop registry [] [] none).1 ++
        (batchLoop registry [] [] none).2.1 ++
        (batchLoop registry [] [] none).2.2.toList)
      (registry.map (fun p => p.ip)) := by
    simpa using batchLoop_subperm registry [] [] none
  have hR : ((batchLoop registry [] [] none).1 ++
      (batchLoop registry [] [] none).2.1 ++
      (batchLoop registry [] [] none).2.2.toList).Nodup :=
    subperm_nodup hsub hreg
  have hips : ((batchLoop registry [] [] none).1 ++
      (batchLoop registry [] [] none).2.1).Nodup :=
    List.Nodup.sublist (List.sublist_append_left ..) hR
  have hsubset : ∀ y ∈ (batchLoop registry [] [] none).1 ++
      (batchLoop registry [] [] none).2.1, y ∈ registry.map (fun p => p.ip) :=
    fun y hy => hsub.subset (by
      exact List.mem_append_left _ hy)
  have hdisj2 : ∀ k : Nat, List.Disjoint
      ((batchLoop registry [] [] none).1 ++ (batchLoop registry [] [] none).2.1)
      (pending.take k) := by
    intro k y hy hyp
    exact hdisj y (List.take_subset k pending hyp) (hsubset y hy)
  have htake : ∀ k : Nat, (pending.take k).Nodup :=
    fun k => List.Nodup.sublist (List.take_sublist ..) hpend
  constructor
  · unfold buildBatch
    dsimp only
    apply List.Nodup.sublist (List.take_sublist ..)
    split
    · split
      · rename_i rr heq
        split
        · rw [heq] at hR
          simpa using hR
        · exact List.Nodup.append hips (htake _) (hdisj2 _)
      · exact List.Nodup.append hips (htake _) (hdisj2 _)
    · exact hips
  · unfold buildBatch
    dsimp only
    exact List.length_take_le ..

/-- C6 witness: a concrete two-player registry with a disjoint one-element
pending backlog yields a duplicate-free batch of at most 100 entries. -/
theorem C6_batch_nodup_and_bounded_witness :
    (buildBatch [Player.init "1.2.3.4" 100 0, Player.init "5.6.7.8" 200 0]
      ["9.9.9.9"]).Nodup ∧
    (buildBatch [Player.init "1.2.3.4" 100 0, Player.init "5.6.7.8" 200 0]
      ["9.9.9.9"]).length ≤ MAX_BATCH_IP_API_IPS :=
  C6_batch_nodup_and_bounded
    [Player.init "1.2.3.4" 100 0, Player.init "5.6.7.8" 200 0] ["9.9.9.9"]
    (by decide) (by decide) (by decide)

end SessionSniffer
